import Mathlib

/-!
Shallow embedding of the Weblate excerpt (trans/views/checks.py,
trans/views/dictionary.py, weblate/__init__.py, weblate/urls.py).

The persisted entities (Project, SubProject, Translation, Unit, Check,
Dictionary, Language) are modelled as rows in explicit list-valued tables,
and each HTTP view is a pure function over a `Database` value.  Fallible
view code (`Http404`, the unguarded `[0]` index) is modelled with `Except`.
-/

namespace Weblate

/-- A language row (lang.models.Language): primary key, code and name. -/
structure Language where
  lid : Nat
  code : String
  name : String
deriving DecidableEq, Repr

/-- A project row: primary key, slug and name. -/
structure Project where
  pid : Nat
  slug : String
  name : String
deriving DecidableEq, Repr

/-- A subproject row: primary key, foreign key to its project and slug. -/
structure SubProject where
  spid : Nat
  projectId : Nat
  slug : String
deriving DecidableEq, Repr

/-- A translation row: primary key, foreign keys to subproject and language. -/
structure Translation where
  tid : Nat
  subprojectId : Nat
  languageId : Nat
deriving DecidableEq, Repr

/-- A unit row (named `UnitRow` because `Unit` is taken in Lean):
checksum-keyed translatable string with its `translated` flag. -/
structure UnitRow where
  uid : Nat
  translationId : Nat
  checksum : String
  translated : Bool
deriving DecidableEq, Repr

/-- A check row: check name, project, optional language (null for
source-scoped checks), checksum and the `ignore` flag. -/
structure CheckRow where
  cid : Nat
  check : String
  projectId : Nat
  languageId : Option Nat
  checksum : String
  ignore : Bool
deriving DecidableEq, Repr

/-- A dictionary row: a source/target term pair scoped to project+language. -/
structure Dictionary where
  did : Nat
  projectId : Nat
  languageId : Nat
  source : String
  target : String
deriving DecidableEq, Repr

/-- An entry of the CHECKS registry (trans.checks): display name and the
target/source scope flags consulted by the check views. -/
structure CheckDef where
  name : String
  target : Bool
  source : Bool
deriving DecidableEq, Repr

/-- The persisted state the views query. -/
structure Database where
  projects : List Project
  subprojects : List SubProject
  translations : List Translation
  units : List UnitRow
  checks : List CheckRow
  dictionaries : List Dictionary
  languages : List Language
deriving DecidableEq, Repr

/-- Failure modes of a view: an `Http404` (with its message), the
uncaught `IndexError` of an out-of-range `[0]`, and an uncaught
`ValueError` (e.g. a non-numeric pagination limit). -/
inductive ViewError where
  | http404 (msg : String)
  | indexError
  | valueError
deriving DecidableEq, Repr

instance {ε α : Type} [DecidableEq ε] [DecidableEq α] : DecidableEq (Except ε α) := fun x y =>
  match x, y with
  | Except.ok a, Except.ok b =>
    if h : a = b then Decidable.isTrue (by rw [h]) else Decidable.isFalse (by simp [h])
  | Except.error a, Except.error b =>
    if h : a = b then Decidable.isTrue (by rw [h]) else Decidable.isFalse (by simp [h])
  | Except.ok _, Except.error _ => Decidable.isFalse (by simp)
  | Except.error _, Except.ok _ => Decidable.isFalse (by simp)

/-- Whether a view outcome is an HTTP 404 response. -/
def isHttp404 {α : Type} : Except ViewError α → Bool
  | Except.error (ViewError.http404 _) => true
  | _ => false

/-- The lookup `request.GET.get(key)`: first value bound to `key` in the query string. -/
def getParam (get : List (String × String)) (key : String) : Option String :=
  (get.find? (fun p => p.1 == key)).map (fun p => p.2)

/-- Modelled from the spec: `get_project` (trans.views.helper) is not part of
the excerpt; per the spec, missing objects raise a not-found condition mapped
to an HTTP 404 response, so it resolves a project by slug or fails with 404. -/
def get_project (db : Database) (slug : String) : Except ViewError Project :=
  match db.projects.find? (fun p => p.slug == slug) with
  | some p => Except.ok p
  | none => Except.error (ViewError.http404 "No project matches the given query.")

/-- Modelled from the spec: `get_subproject` (trans.views.helper) is not part
of the excerpt; it resolves a subproject by project slug and subproject slug
or fails with an HTTP 404 response. -/
def get_subproject (db : Database) (project subproject : String) :
    Except ViewError SubProject :=
  match get_project db project with
  | Except.error e => Except.error e
  | Except.ok prj =>
    match db.subprojects.find?
        (fun s => s.projectId == prj.pid && s.slug == subproject) with
    | some s => Except.ok s
    | none => Except.error (ViewError.http404 "No subproject matches the given query.")

/-- The lookup `get_object_or_404(Language, code=lang)`. -/
def get_language (db : Database) (code : String) : Except ViewError Language :=
  match db.languages.find? (fun l => l.code == code) with
  | some l => Except.ok l
  | none => Except.error (ViewError.http404 "No language matches the given query.")

/-- URL of the show_dictionary page per the routing table in weblate/urls.py
(`^dictionaries/(?P<project>[^/]*)/(?P<lang>[^/]*)/$`). -/
def reverse_show_dictionary (project lang : String) : String :=
  "/dictionaries/" ++ project ++ "/" ++ lang ++ "/"

/-- Modelled from the spec: `get_site_url` (trans.util) is not part of the
excerpt; it turns a site-relative path into an absolute URL by prefixing the
site base. -/
def get_site_url (site_base : String) (path : String) : String :=
  site_base ++ path

/-- The generated PO header fields of a dictionary export
(`store.updateheader` in download_dictionary_ttkit). -/
structure PoHeader where
  language : String
  x_generator : String
  project_id_version : String
  language_team : String
deriving DecidableEq, Repr

/-- A unit added to a translate-toolkit store: source, target, and the
language code the target was set with (`settarget`), if any. -/
structure StoreUnit where
  source : String
  target : String
  targetLang : Option String
deriving DecidableEq, Repr

/-- A dictionary download built through the translate toolkit. -/
structure TtkitResponse where
  mimetype : String
  filename : String
  header : Option PoHeader
  units : List StoreUnit
deriving DecidableEq, Repr

/-- The builder `download_dictionary_ttkit` (dictionary.py lines 150-206): builds a PO
store with a generated header, or a TBX store where each target is set with
the language code.  `site_base` abstracts the deployment's site address used
by `get_site_url` and `version` abstracts `weblate.VERSION`. -/
def download_dictionary_ttkit (site_base version : String)
    (export_format : String) (prj : Project) (lang : Language)
    (words : List Dictionary) : TtkitResponse :=
  if export_format = "po" then
    { mimetype := "text/x-po; charset=utf-8"
      filename := "glossary-" ++ prj.slug ++ "-" ++ lang.code ++ ".po"
      header := some
        { language := lang.code
          x_generator := "Weblate " ++ version
          project_id_version := lang.name ++ " (" ++ prj.name ++ ")"
          language_team := lang.name ++ " <" ++
            get_site_url site_base (reverse_show_dictionary prj.slug lang.code) ++ ">" }
      units := words.map (fun w =>
        { source := w.source, target := w.target, targetLang := none }) }
  else
    { mimetype := "application/x-tbx; charset=utf-8"
      filename := "glossary-" ++ prj.slug ++ "-" ++ lang.code ++ ".tbx"
      header := none
      units := words.map (fun w =>
        { source := w.source, target := w.target, targetLang := some lang.code }) }

/-- The dictionary-word query both download_dictionary and show_dictionary
issue: `Dictionary.objects.filter(project=prj, language=lang).order_by('source')`. -/
def dictionary_words (db : Database) (prjId langId : Nat) : List Dictionary :=
  (db.dictionaries.filter
    (fun w => w.projectId == prjId && w.languageId == langId)).mergeSort
    (fun a b => decide (a.source ≤ b.source))

/-- One CSV row: the UTF-8 encoded (source, target) pair. -/
def csvRow (w : Dictionary) : List UInt8 × List UInt8 :=
  (w.source.toUTF8.toList, w.target.toUTF8.toList)

/-- A dictionary download: either the hand-built CSV attachment or a
delegation to the translate-toolkit builder. -/
inductive DownloadResponse where
  | csv (mimetype filename : String) (rows : List (List UInt8 × List UInt8))
  | ttkit (export_format : String) (resp : TtkitResponse)
deriving DecidableEq, Repr

/-- The view `download_dictionary` (dictionary.py lines 209-245). -/
def download_dictionary (site_base version : String)
    (get : List (String × String)) (db : Database)
    (project langCode : String) : Except ViewError DownloadResponse := do
  let prj ← get_project db project
  let lang ← get_language db langCode
  let export_format :=
    match getParam get "format" with
    | some f => if f = "csv" ∨ f = "po" ∨ f = "tbx" then f else "csv"
    | none => "csv"
  let words := dictionary_words db prj.pid lang.lid
  if export_format = "po" ∨ export_format = "tbx" then
    pure (DownloadResponse.ttkit export_format
      (download_dictionary_ttkit site_base version export_format prj lang words))
  else
    pure (DownloadResponse.csv "text/csv; charset=utf-8"
      ("dictionary-" ++ prj.slug ++ "-" ++ lang.code ++ ".csv")
      (words.map csvRow))

/-- Modelled from the spec: Django's `Paginator` is framework code not in the
excerpt.  `num_pages` is its page count for `count` items at `per_page` items
per page — the ceiling of `count / per_page`, but at least one page — and a
requested page number is valid when it lies between 1 and `num_pages`. -/
def num_pages (count per_page : Nat) : Nat :=
  (max 1 count + per_page - 1) / per_page

/-- The object list of page `n` (1-based): the slice
`words[(n-1)*per_page : n*per_page]`. -/
def page_slice (words : List Dictionary) (per_page n : Nat) : List Dictionary :=
  (words.drop ((n - 1) * per_page)).take per_page

/-- The parameter `request.GET.get('page', 1)` followed by the Paginator's integer
conversion: `none` models the `PageNotAnInteger` condition. -/
def parse_page (get : List (String × String)) : Option Int :=
  match getParam get "page" with
  | none => some 1
  | some s => s.toInt?

/-- The parameter `request.GET.get('limit', 25)` followed by the Paginator's integer
conversion of `per_page`; `none` models an uncaught `ValueError`. -/
def parse_limit (get : List (String × String)) : Option Nat :=
  match getParam get "limit" with
  | none => some 25
  | some s => s.toNat?

/-- The paginated page show_dictionary delivers (dictionary.py lines
285-294): a `PageNotAnInteger` page value falls back to the first page and
an `EmptyPage` (out-of-range) page value to the last page. -/
def show_dictionary_page (get : List (String × String)) (per_page : Nat)
    (words : List Dictionary) : List Dictionary :=
  match parse_page get with
  | none => page_slice words per_page 1
  | some n =>
    if 1 ≤ n ∧ n ≤ (num_pages words.length per_page : Int) then
      page_slice words per_page n.toNat
    else page_slice words per_page (num_pages words.length per_page)

/-- The word list show_dictionary paginates: the ordered project+language
dictionary entries, optionally narrowed by the letter form
(`source__istartswith`); the letter form's validation lives outside the
excerpt, so the narrowing predicate is abstract. -/
def show_dictionary_words (db : Database) (prjId langId : Nat)
    (letterFilter : Option (Dictionary → Bool)) : List Dictionary :=
  match letterFilter with
  | some p => (dictionary_words db prjId langId).filter p
  | none => dictionary_words db prjId langId

/-- The view `show_dictionary` (dictionary.py lines 248-306), restricted to the word
listing it renders: resolves project and language, orders and narrows the
dictionary entries, and paginates them. -/
def show_dictionary (get : List (String × String)) (db : Database)
    (letterFilter : Option (Dictionary → Bool))
    (project langCode : String) : Except ViewError (List Dictionary) := do
  let prj ← get_project db project
  let lang ← get_language db langCode
  let words := show_dictionary_words db prj.pid lang.lid letterFilter
  match parse_limit get with
  | none => throw ViewError.valueError
  | some limit =>
    if limit = 0 then throw ViewError.valueError
    else pure (show_dictionary_page get limit words)

/-- A flash message attached to the request, tagged with its level. -/
inductive Msg where
  | error (text : String)
  | warning (text : String)
  | info (text : String)
deriving DecidableEq, Repr

/-- The request-dependent inputs of upload_dictionary: the HTTP method, the
validity of the upload form, and the outcome of `Dictionary.objects.upload`
(a word count, or the text of the exception it raised). -/
structure UploadRequest where
  isPost : Bool
  formValid : Bool
  uploadResult : Except String Nat
deriving DecidableEq, Repr

/-- The `upload_dictionary` body (dictionary.py lines 111-147): resolves project
and language, classifies the outcome into exactly one flash message, applies
the import's effect on the dictionary table (`importEffect` abstracts
`Dictionary.objects.upload`, which is outside the excerpt), and redirects to
the show_dictionary page. -/
def upload_dictionary_body (importEffect : List Dictionary → List Dictionary)
    (req : UploadRequest) (project langCode : String) (db : Database) :
    Except ViewError (String × List Msg) × Database :=
  match get_project db project with
  | Except.error e => (Except.error e, db)
  | Except.ok prj =>
    match get_language db langCode with
    | Except.error e => (Except.error e, db)
    | Except.ok lang =>
      let url := reverse_show_dictionary prj.slug lang.code
      if req.isPost then
        if req.formValid then
          match req.uploadResult with
          | Except.ok count =>
            let msg := if count = 0 then Msg.warning "No words to import found in file."
              else Msg.info ("Imported " ++ toString count ++ " words from file.")
            (Except.ok (url, [msg]),
             { db with dictionaries := importEffect db.dictionaries })
          | Except.error e =>
            (Except.ok (url, [Msg.error ("File upload has failed: " ++ e)]), db)
        else (Except.ok (url, [Msg.error "Failed to process form!"]), db)
      else (Except.ok (url, [Msg.error "Failed to process form!"]), db)

/-- The cleaned data of the add/edit word form. -/
structure WordFormData where
  source : String
  target : String
deriving DecidableEq, Repr

/-- The request-dependent inputs of edit_dictionary. -/
structure EditRequest where
  isPost : Bool
  formValid : Bool
  form : WordFormData
  getId : Option Nat
deriving DecidableEq, Repr

/-- What a dictionary CRUD view renders: a redirect or an HTML page. -/
inductive PageResponse where
  | redirect (url : String)
  | render
deriving DecidableEq, Repr

/-- The `edit_dictionary` body (dictionary.py lines 55-86): looks up the word by
project, language and the `id` GET parameter (404 when missing); a valid
POST saves the new source/target and redirects, anything else renders the
form. -/
def edit_dictionary_body (req : EditRequest) (project langCode : String)
    (db : Database) : Except ViewError PageResponse × Database :=
  match get_project db project with
  | Except.error e => (Except.error e, db)
  | Except.ok prj =>
    match get_language db langCode with
    | Except.error e => (Except.error e, db)
    | Except.ok lang =>
      match db.dictionaries.find? (fun w =>
          w.projectId == prj.pid && w.languageId == lang.lid &&
          some w.did == req.getId) with
      | none => (Except.error (ViewError.http404 "No Dictionary matches the given query."), db)
      | some word =>
        if req.isPost && req.formValid then
          (Except.ok (PageResponse.redirect (reverse_show_dictionary prj.slug lang.code)),
           { db with dictionaries := db.dictionaries.map (fun w =>
              if w.did == word.did then
                { w with source := req.form.source, target := req.form.target }
              else w) })
        else (Except.ok PageResponse.render, db)

/-- The request-dependent input of delete_dictionary: the `id` POST field. -/
structure DeleteRequest where
  postId : Option Nat
deriving DecidableEq, Repr

/-- The `delete_dictionary` body (dictionary.py lines 91-106): looks up the word
by project, language and the `id` POST parameter (404 when missing), deletes
it and redirects to the show_dictionary page. -/
def delete_dictionary_body (req : DeleteRequest) (project langCode : String)
    (db : Database) : Except ViewError PageResponse × Database :=
  match get_project db project with
  | Except.error e => (Except.error e, db)
  | Except.ok prj =>
    match get_language db langCode with
    | Except.error e => (Except.error e, db)
    | Except.ok lang =>
      match db.dictionaries.find? (fun w =>
          w.projectId == prj.pid && w.languageId == lang.lid &&
          some w.did == req.postId) with
      | none => (Except.error (ViewError.http404 "No Dictionary matches the given query."), db)
      | some word =>
        (Except.ok (PageResponse.redirect (reverse_show_dictionary prj.slug lang.code)),
         { db with dictionaries := db.dictionaries.filter (fun w => !(w.did == word.did)) })

/-- The requesting user: authentication state and granted permissions. -/
structure UserState where
  is_authenticated : Bool
  perms : List String
deriving DecidableEq, Repr

/-- Outcome of a decorator-guarded view: redirected to login, denied, or
handled by the wrapped view body. -/
inductive GuardedResult (α : Type) where
  | redirectToLogin
  | denied
  | handled (r : Except ViewError α)
deriving DecidableEq, Repr

/-- Modelled from the spec: `login_required` and `permission_required` are
framework decorators not in the excerpt; per the spec they redirect or deny
access, and the wrapped view body only runs for an authenticated user
holding the permission. -/
def require_login_and_perm {α : Type} (perm : String) (user : UserState)
    (view : Database → Except ViewError α × Database) (db : Database) :
    GuardedResult α × Database :=
  if !user.is_authenticated then (GuardedResult.redirectToLogin, db)
  else if !(user.perms.contains perm) then (GuardedResult.denied, db)
  else
    let r := view db
    (GuardedResult.handled r.1, r.2)

/-- The decorated `edit_dictionary` view: login plus
`trans.change_dictionary` (dictionary.py lines 53-55). -/
def edit_dictionary (user : UserState) (req : EditRequest)
    (project langCode : String) (db : Database) :
    GuardedResult PageResponse × Database :=
  require_login_and_perm "trans.change_dictionary" user
    (edit_dictionary_body req project langCode) db

/-- The decorated `delete_dictionary` view: login plus
`trans.delete_dictionary` (dictionary.py lines 89-91). -/
def delete_dictionary (user : UserState) (req : DeleteRequest)
    (project langCode : String) (db : Database) :
    GuardedResult PageResponse × Database :=
  require_login_and_perm "trans.delete_dictionary" user
    (delete_dictionary_body req project langCode) db

/-- The decorated `upload_dictionary` view: login plus
`trans.upload_dictionary` (dictionary.py lines 109-111). -/
def upload_dictionary (importEffect : List Dictionary → List Dictionary)
    (user : UserState) (req : UploadRequest) (project langCode : String)
    (db : Database) : GuardedResult (String × List Msg) × Database :=
  require_login_and_perm "trans.upload_dictionary" user
    (upload_dictionary_body importEffect req project langCode) db

/-- Lookup in the CHECKS registry (`CHECKS[name]`), as an association list
from check names to their definitions. -/
def lookupCheck (reg : List (String × CheckDef)) (name : String) : Option CheckDef :=
  (reg.find? (fun p => p.1 == name)).map (fun p => p.2)

/-- The translation row a unit belongs to. -/
def translationOf (db : Database) (u : UnitRow) : Option Translation :=
  db.translations.find? (fun t => t.tid == u.translationId)

/-- The subproject row a translation belongs to. -/
def subprojectOf (db : Database) (t : Translation) : Option SubProject :=
  db.subprojects.find? (fun s => s.spid == t.subprojectId)

/-- The language row with the given primary key. -/
def languageOf (db : Database) (lid : Nat) : Option Language :=
  db.languages.find? (fun l => l.lid == lid)

/-- The ORM join `translation__language`: the language key of the unit's
translation, when that translation exists. -/
def unitLangId (db : Database) (u : UnitRow) : Option Nat :=
  (translationOf db u).map (fun t => t.languageId)

/-- The filter `translation__language=lang`: an inner join on the unit's
translation, then equality with `lang` (`none`, i.e. SQL NULL, matches no
unit since the language column of a translation is non-null). -/
def unitLang (db : Database) (u : UnitRow) (lang : Option Nat) : Bool :=
  match translationOf db u with
  | some t => some t.languageId == lang
  | none => false

/-- The filter `translation__subproject=sp`. -/
def unitSubproject (db : Database) (u : UnitRow) (spid : Nat) : Bool :=
  match translationOf db u with
  | some t => t.subprojectId == spid
  | none => false

/-- The filter `translation__subproject__project=prj`. -/
def unitProject (db : Database) (u : UnitRow) (prjId : Nat) : Bool :=
  match (translationOf db u).bind (subprojectOf db) with
  | some sp => sp.projectId == prjId
  | none => false

/-- The aggregation `values(key).annotate(count=Count('id'))`: one row per distinct key with
the number of rows sharing it. -/
def groupCount {α κ : Type} [DecidableEq κ] (key : α → κ) (rows : List α) :
    List (κ × Nat) :=
  (rows.map key).dedup.map
    (fun k => (k, (rows.filter (fun r => decide (key r = k))).length))

/-- The view `show_checks` (checks.py lines 32-42): non-ignored checks grouped by
check name with counts. -/
def show_checks (db : Database) : List (String × Nat) :=
  groupCount (fun c => c.check) (db.checks.filter (fun c => !c.ignore))

/-- The join `project__slug` on a check row. -/
def checkProjectSlug (db : Database) (c : CheckRow) : Option String :=
  (db.projects.find? (fun p => p.pid == c.projectId)).map (fun p => p.slug)

/-- The view `show_check` (checks.py lines 45-62): Http404 for an unknown check name,
otherwise the non-ignored checks of that name grouped by project slug. -/
def show_check (reg : List (String × CheckDef)) (db : Database) (name : String) :
    Except ViewError (List (Option String × Nat)) :=
  match lookupCheck reg name with
  | none => Except.error (ViewError.http404 "No check matches the given query.")
  | some _ =>
    Except.ok (groupCount (checkProjectSlug db)
      (db.checks.filter (fun c => c.check == name && !c.ignore)))

/-- The check filter of the per-language queries:
`check=name, project=prj, language=lang, ignore=False`. -/
def target_check_filter (name : String) (prjId : Nat) (lang : Option Nat)
    (c : CheckRow) : Bool :=
  c.check == name && c.projectId == prjId && c.languageId == lang && !c.ignore

/-- The distinct languages of the matching non-ignored check rows:
`Check.objects.filter(check=name, project=prj, ignore=False)
.values_list('language', flat=True).distinct()`. -/
def project_check_langs (db : Database) (name : String) (prjId : Nat) :
    List (Option Nat) :=
  ((db.checks.filter (fun c =>
    c.check == name && c.projectId == prjId && !c.ignore)).map
      (fun c => c.languageId)).dedup

/-- The checksums of the matching non-ignored check rows of one language. -/
def check_checksums (db : Database) (name : String) (prjId : Nat)
    (lang : Option Nat) : List String :=
  (db.checks.filter (target_check_filter name prjId lang)).map (fun c => c.checksum)

/-- The checksums of the source-scoped rows: the same query with
`language=None`. -/
def source_checksums (db : Database) (name : String) (prjId : Nat) : List String :=
  check_checksums db name prjId none

/-- The per-language unit query of show_check_project's target branch
(checks.py lines 83-91). -/
def project_target_units_for_lang (db : Database) (name : String) (prjId : Nat)
    (lang : Option Nat) : List UnitRow :=
  db.units.filter (fun u =>
    (check_checksums db name prjId lang).contains u.checksum &&
    unitLang db u lang && unitProject db u prjId && u.translated)

/-- The accumulated unit set of show_check_project's target branch: the
per-language queries over the distinct check languages (checks.py lines
75-92). -/
def project_target_units (db : Database) (name : String) (prjId : Nat) :
    List UnitRow :=
  (project_check_langs db name prjId).flatMap (fun lang =>
    project_target_units_for_lang db name prjId lang)

/-- The per-language unit query of show_check_subproject's target branch
(checks.py lines 147-154). -/
def subproject_target_units_for_lang (db : Database) (name : String)
    (prjId spid : Nat) (lang : Option Nat) : List UnitRow :=
  db.units.filter (fun u =>
    unitSubproject db u spid &&
    (check_checksums db name prjId lang).contains u.checksum &&
    unitLang db u lang && u.translated)

/-- The accumulated unit set of show_check_subproject's target branch
(checks.py lines 132-155). -/
def subproject_target_units (db : Database) (name : String) (prjId spid : Nat) :
    List UnitRow :=
  (project_check_langs db name prjId).flatMap (fun lang =>
    subproject_target_units_for_lang db name prjId spid lang)

/-- The query `subproject.translation_set.all()`. -/
def translation_set (db : Database) (spid : Nat) : List Translation :=
  db.translations.filter (fun t => t.subprojectId == spid)

/-- The query `prj.subproject_set.all()`. -/
def subproject_set (db : Database) (prjId : Nat) : List SubProject :=
  db.subprojects.filter (fun s => s.projectId == prjId)

/-- The grouping key of show_check_project's rows:
`('translation__subproject__slug', 'translation__subproject__project__slug')`. -/
def unitGroupKey (db : Database) (u : UnitRow) : Option (String × String) :=
  match (translationOf db u).bind (subprojectOf db) with
  | some sp =>
    match db.projects.find? (fun p => p.pid == sp.projectId) with
    | some p => some (sp.slug, p.slug)
    | none => none
  | none => none

/-- The grouping key of show_check_subproject's rows:
`'translation__language__code'`. -/
def unitLangCode (db : Database) (u : UnitRow) : Option String :=
  (translationOf db u).bind (fun t => (languageOf db t.languageId).map (fun l => l.code))

/-- The unit query of show_check_project's source branch for one subproject
(checks.py lines 104-111), counted against the given language. -/
def project_source_units_for (db : Database) (name : String) (prjId : Nat)
    (sp : SubProject) (langId : Nat) : List UnitRow :=
  db.units.filter (fun u =>
    (source_checksums db name prjId).contains u.checksum &&
    unitLang db u (some langId) && unitSubproject db u sp.spid)

/-- The source branch of show_check_project (checks.py lines 93-112): for
every subproject of the project, the language of the first element of its
translation set is read with an unguarded `[0]`; an empty translation set
raises `IndexError`. -/
def project_source_rows (db : Database) (name : String) (prjId : Nat) :
    Except ViewError (List (Option (String × String) × Nat)) :=
  (subproject_set db prjId).foldlM (fun acc sp =>
    match (translation_set db sp.spid).head? with
    | none => Except.error ViewError.indexError
    | some tr => Except.ok (acc ++ groupCount (unitGroupKey db)
        (project_source_units_for db name prjId sp tr.languageId))) []

/-- The view `show_check_project` (checks.py lines 65-119). -/
def show_check_project (reg : List (String × CheckDef)) (db : Database)
    (name project : String) :
    Except ViewError (List (Option (String × String) × Nat)) := do
  let prj ← get_project db project
  match lookupCheck reg name with
  | none => throw (ViewError.http404 "No check matches the given query.")
  | some check => do
    let targetRows :=
      if check.target then
        groupCount (unitGroupKey db) (project_target_units db name prj.pid)
      else []
    let sourceRows ←
      if check.source then project_source_rows db name prj.pid
      else pure []
    pure (targetRows ++ sourceRows)

/-- The single source-scoped count of show_check_subproject (checks.py lines
157-168): the language of the first element of the subproject's translation
set is read with an unguarded `[0]`. -/
def subproject_source_count (db : Database) (name : String) (prjId spid : Nat) :
    Except ViewError Nat :=
  match (translation_set db spid).head? with
  | none => Except.error ViewError.indexError
  | some tr => Except.ok
      (db.units.filter (fun u =>
        unitSubproject db u spid &&
        (source_checksums db name prjId).contains u.checksum &&
        unitLang db u (some tr.languageId))).length

/-- The rendered context of show_check_subproject. -/
structure CheckSubprojectResponse where
  checks : List (Option String × Nat)
  source_checks : List Nat
  anychecks : Bool
deriving DecidableEq, Repr

/-- The view `show_check_subproject` (checks.py lines 122-181). -/
def show_check_subproject (reg : List (String × CheckDef)) (db : Database)
    (name project subproject : String) :
    Except ViewError CheckSubprojectResponse := do
  let subprj ← get_subproject db project subproject
  match lookupCheck reg name with
  | none => throw (ViewError.http404 "No check matches the given query.")
  | some check => do
    let units :=
      if check.target then
        groupCount (unitLangCode db)
          (subproject_target_units db name subprj.projectId subprj.spid)
      else []
    let sourceChecks ←
      if check.source then do
        let res ← subproject_source_count db name subprj.projectId subprj.spid
        pure (if res > 0 then [res] else [])
      else pure ([] : List Nat)
    pure { checks := units, source_checks := sourceChecks,
           anychecks := units.length + sourceChecks.length > 0 }

/-!
## Concrete fixtures used by the witness theorems
-/

/-- A concrete language row. -/
def egLang : Language := { lid := 1, code := "cs", name := "Czech" }

/-- A concrete project row. -/
def egProject : Project := { pid := 1, slug := "proj", name := "Proj" }

/-- A concrete database with one project, one language and two dictionary
entries (deliberately stored out of source order). -/
def egDb : Database :=
  { projects := [egProject]
    subprojects := []
    translations := []
    units := []
    checks := []
    dictionaries :=
      [{ did := 1, projectId := 1, languageId := 1, source := "b", target := "B" },
       { did := 2, projectId := 1, languageId := 1, source := "a", target := "A" }]
    languages := [egLang] }

/-- A concrete subproject registry database for the check views: one
project, one subproject, two languages, translations, units and check rows
(one of them ignored). -/
def egSub : SubProject := { spid := 1, projectId := 1, slug := "sub" }

/-- A second concrete language row. -/
def egLang2 : Language := { lid := 2, code := "de", name := "German" }

/-- A target-scoped check definition. -/
def egTargetDef : CheckDef := { name := "Same check", target := true, source := false }

/-- A source-scoped check definition. -/
def egSourceDef : CheckDef := { name := "Source check", target := false, source := true }

/-- A concrete CHECKS registry. -/
def egReg : List (String × CheckDef) := [("same", egTargetDef), ("src", egSourceDef)]

/-- A concrete database exercising the check views. -/
def egDb2 : Database :=
  { projects := [egProject]
    subprojects := [egSub]
    translations :=
      [{ tid := 1, subprojectId := 1, languageId := 1 },
       { tid := 2, subprojectId := 1, languageId := 2 }]
    units :=
      [{ uid := 1, translationId := 1, checksum := "cks1", translated := true },
       { uid := 2, translationId := 1, checksum := "cks2", translated := false },
       { uid := 3, translationId := 2, checksum := "cks1", translated := true }]
    checks :=
      [{ cid := 1, check := "same", projectId := 1, languageId := some 1,
         checksum := "cks1", ignore := false },
       { cid := 2, check := "same", projectId := 1, languageId := some 2,
         checksum := "cks1", ignore := true },
       { cid := 3, check := "src", projectId := 1, languageId := none,
         checksum := "cks2", ignore := false }]
    dictionaries := []
    languages := [egLang, egLang2] }

/-- A concrete database whose subproject has no translations. -/
def egDb3 : Database :=
  { projects := [egProject]
    subprojects := [egSub]
    translations := []
    units := []
    checks := []
    dictionaries := []
    languages := [egLang] }

/-- Copy of `db` with its check table replaced (used to state that a view performs
no other check query). -/
def setChecks (db : Database) (cs : List CheckRow) : Database :=
  { db with checks := cs }

/-- Copy of `db` with every unit's `translated` flag rewritten by `f` (used to state
that a query has no translated filter). -/
def setUnits (db : Database) (f : UnitRow → Bool) : Database :=
  { db with units := db.units.map (fun u => { u with translated := f u }) }

/-- Copy of `db` with both its check and unit tables replaced (used to state that a
view touches neither). -/
def setTables (db : Database) (cs : List CheckRow) (us : List UnitRow) : Database :=
  { db with checks := cs, units := us }

/-- The target-scoped unit set as claim C4 words it, at project level: the
translated units of the project whose translation language carries a
matching non-ignored check row with the unit's checksum. -/
def spec_project_target_units (db : Database) (name : String) (prjId : Nat) :
    List UnitRow :=
  db.units.filter (fun u =>
    u.translated && unitProject db u prjId &&
    db.checks.any (fun c => c.check == name && c.projectId == prjId &&
      !c.ignore && c.languageId == unitLangId db u && c.checksum == u.checksum))

/-- The target-scoped unit set as claim C4 words it, at subproject level. -/
def spec_subproject_target_units (db : Database) (name : String)
    (prjId spid : Nat) : List UnitRow :=
  db.units.filter (fun u =>
    u.translated && unitSubproject db u spid &&
    db.checks.any (fun c => c.check == name && c.projectId == prjId &&
      !c.ignore && c.languageId == unitLangId db u && c.checksum == u.checksum))

/-!
## Claim theorems
-/

@[simp] theorem ok_bind {ε α β : Type} (a : α) (f : α → Except ε β) :
    (Except.ok a >>= f) = f a := rfl

@[simp] theorem error_bind {ε α β : Type} (e : ε) (f : α → Except ε β) :
    ((Except.error e : Except ε α) >>= f) = Except.error e := rfl

@[simp] theorem pure_eq_ok {ε α : Type} (a : α) :
    (pure a : Except ε α) = Except.ok a := rfl

@[simp] theorem throw_eq_error {ε α : Type} (e : ε) :
    (throw e : Except ε α) = Except.error e := rfl


/-- C1: download_dictionary takes the export format from the 'format' GET
parameter; absent or unrecognized values fall back to 'csv', yielding the
hand-built CSV attachment (mimetype 'text/csv; charset=utf-8', filename
'dictionary-<project-slug>-<lang-code>.csv') with exactly one UTF-8 encoded
(source, target) row per dictionary entry of the project+language, while
'po' and 'tbx' delegate to download_dictionary_ttkit. -/
theorem c1_download_dictionary_format (site_base version : String)
    (get : List (String × String)) (db : Database) (project langCode : String)
    (prj : Project) (lang : Language)
    (hp : get_project db project = Except.ok prj)
    (hl : get_language db langCode = Except.ok lang) :
    ((∀ f, getParam get "format" = some f → f ≠ "po" ∧ f ≠ "tbx") →
      download_dictionary site_base version get db project langCode =
        Except.ok (DownloadResponse.csv "text/csv; charset=utf-8"
          ("dictionary-" ++ prj.slug ++ "-" ++ lang.code ++ ".csv")
          ((dictionary_words db prj.pid lang.lid).map csvRow))) ∧
    ((dictionary_words db prj.pid lang.lid).map csvRow).Perm
      ((db.dictionaries.filter (fun w =>
        w.projectId == prj.pid && w.languageId == lang.lid)).map csvRow) ∧
    (∀ f, (f = "po" ∨ f = "tbx") → getParam get "format" = some f →
      download_dictionary site_base version get db project langCode =
        Except.ok (DownloadResponse.ttkit f
          (download_dictionary_ttkit site_base version f prj lang
            (dictionary_words db prj.pid lang.lid)))) := by
  refine ⟨?_, ?_, ?_⟩
  · intro hfmt
    simp only [download_dictionary, hp, hl, ok_bind]
    cases h : getParam get "format" with
    | none =>
      simp
      all_goals decide
    | some f =>
      obtain ⟨hpo, htbx⟩ := hfmt f h
      by_cases hcsv : f = "csv"
      · subst hcsv
        simp
        all_goals decide
      · simp [hcsv, hpo, htbx]
        all_goals decide
  · exact (List.mergeSort_perm _ _).map csvRow
  · intro f hf h
    simp only [download_dictionary, hp, hl, ok_bind, h]
    rcases hf with hf | hf <;> subst hf <;> simp

/-- Witness for C1 at a concrete request and database. -/
theorem c1_witness :
    get_project egDb "proj" = Except.ok egProject ∧
    get_language egDb "cs" = Except.ok egLang ∧
    ((∀ f, getParam [] "format" = some f → f ≠ "po" ∧ f ≠ "tbx") →
      download_dictionary "http://x" "1.6" [] egDb "proj" "cs" =
        Except.ok (DownloadResponse.csv "text/csv; charset=utf-8"
          ("dictionary-" ++ egProject.slug ++ "-" ++ egLang.code ++ ".csv")
          ((dictionary_words egDb egProject.pid egLang.lid).map csvRow))) :=
  ⟨by decide, by decide,
   (c1_download_dictionary_format "http://x" "1.6" [] egDb "proj" "cs"
      egProject egLang (by decide) (by decide)).1⟩

/-- C2: for a PO dictionary export the generated header carries the language
code, the 'Weblate <version>' generator, the '<language name> (<project
name>)' project-id-version, and a language-team combining the language name
with the site URL of the show_dictionary page; a TBX export generates no
header and sets each unit's target together with the language code. -/
theorem c2_ttkit_po_header_tbx_target (site_base version : String)
    (prj : Project) (lang : Language) (words : List Dictionary) :
    (download_dictionary_ttkit site_base version "po" prj lang words).header =
      some { language := lang.code
             x_generator := "Weblate " ++ version
             project_id_version := lang.name ++ " (" ++ prj.name ++ ")"
             language_team := lang.name ++ " <" ++
               get_site_url site_base
                 (reverse_show_dictionary prj.slug lang.code) ++ ">" } ∧
    (download_dictionary_ttkit site_base version "po" prj lang words).units =
      words.map (fun w =>
        { source := w.source, target := w.target, targetLang := none }) ∧
    (download_dictionary_ttkit site_base version "tbx" prj lang words).header =
      none ∧
    (download_dictionary_ttkit site_base version "tbx" prj lang words).units =
      words.map (fun w =>
        { source := w.source, target := w.target, targetLang := some lang.code }) := by
  refine ⟨?_, ?_, ?_, ?_⟩ <;> simp [download_dictionary_ttkit]

/-- C6: upload_dictionary ends in a redirect to the show_dictionary page of
the same project and language with exactly one flash message classifying the
outcome: 'Failed to process form!' (error) off-POST or on an invalid form,
the exception text (error) when the import raises, 'No words to import found
in file.' (warning) on a zero count, and the imported count (info) on a
positive count. -/
theorem c6_upload_dictionary_outcomes
    (importEffect : List Dictionary → List Dictionary) (req : UploadRequest)
    (project langCode : String) (db : Database) (prj : Project) (lang : Language)
    (hp : get_project db project = Except.ok prj)
    (hl : get_language db langCode = Except.ok lang) :
    ∃ msgs : List Msg,
      (upload_dictionary_body importEffect req project langCode db).1 =
        Except.ok (reverse_show_dictionary prj.slug lang.code, msgs) ∧
      msgs.length = 1 ∧
      (req.isPost = false ∨ req.formValid = false →
        msgs = [Msg.error "Failed to process form!"]) ∧
      (∀ e, req.isPost = true → req.formValid = true →
        req.uploadResult = Except.error e →
        msgs = [Msg.error ("File upload has failed: " ++ e)]) ∧
      (req.isPost = true → req.formValid = true →
        req.uploadResult = Except.ok 0 →
        msgs = [Msg.warning "No words to import found in file."]) ∧
      (∀ n, req.isPost = true → req.formValid = true →
        req.uploadResult = Except.ok n → 0 < n →
        msgs = [Msg.info ("Imported " ++ toString n ++ " words from file.")]) := by
  obtain ⟨p, v, r⟩ := req
  cases p with
  | false =>
    refine ⟨[Msg.error "Failed to process form!"], ?_⟩
    simp [upload_dictionary_body, hp, hl]
  | true =>
    cases v with
    | false =>
      refine ⟨[Msg.error "Failed to process form!"], ?_⟩
      simp [upload_dictionary_body, hp, hl]
    | true =>
      cases r with
      | error e =>
        refine ⟨[Msg.error ("File upload has failed: " ++ e)], ?_⟩
        simp [upload_dictionary_body, hp, hl]
      | ok n =>
        cases n with
        | zero =>
          refine ⟨[Msg.warning "No words to import found in file."], ?_⟩
          simp [upload_dictionary_body, hp, hl]
        | succ m =>
          refine ⟨[Msg.info ("Imported " ++ toString (m + 1) ++ " words from file.")], ?_⟩
          simp [upload_dictionary_body, hp, hl]

/-- Witness for C6 at a concrete GET request. -/
theorem c6_witness :
    get_project egDb "proj" = Except.ok egProject ∧
    get_language egDb "cs" = Except.ok egLang ∧
    ∃ msgs : List Msg,
      (upload_dictionary_body id
        { isPost := false, formValid := false, uploadResult := Except.ok 0 }
        "proj" "cs" egDb).1 =
        Except.ok (reverse_show_dictionary egProject.slug egLang.code, msgs) ∧
      msgs.length = 1 ∧
      (false = false ∨ false = false →
        msgs = [Msg.error "Failed to process form!"]) ∧
      (∀ e, false = true → false = true →
        Except.ok (ε := String) 0 = Except.error e →
        msgs = [Msg.error ("File upload has failed: " ++ e)]) ∧
      (false = true → false = true →
        Except.ok (ε := String) (0 : Nat) = Except.ok 0 →
        msgs = [Msg.warning "No words to import found in file."]) ∧
      (∀ n, false = true → false = true →
        Except.ok (ε := String) (0 : Nat) = Except.ok n → 0 < n →
        msgs = [Msg.info ("Imported " ++ toString n ++ " words from file.")]) :=
  ⟨by decide, by decide,
   c6_upload_dictionary_outcomes id
     { isPost := false, formValid := false, uploadResult := Except.ok 0 }
     "proj" "cs" egDb egProject egLang (by decide) (by decide)⟩

/-!
## Ordering and pagination lemmas
-/

theorem pairwise_source_dictionary_words (db : Database) (prjId langId : Nat) :
    List.Pairwise (fun a b => a.source ≤ b.source)
      (dictionary_words db prjId langId) := by
  have h : List.Pairwise
      (fun a b : Dictionary => decide (a.source ≤ b.source) = true)
      (dictionary_words db prjId langId) := by
    unfold dictionary_words
    apply List.sorted_mergeSort
    · intro a b c hab hbc
      simp only [decide_eq_true_eq] at hab hbc ⊢
      exact le_trans hab hbc
    · intro a b
      simp only [Bool.or_eq_true, decide_eq_true_eq]
      exact le_total a.source b.source
  exact h.imp (fun hab => of_decide_eq_true hab)

theorem page_slice_sublist (words : List Dictionary) (per_page n : Nat) :
    (page_slice words per_page n).Sublist words :=
  (List.take_sublist _ _).trans (List.drop_sublist _ _)

theorem pairwise_show_dictionary_page {R : Dictionary → Dictionary → Prop}
    (get : List (String × String)) (per_page : Nat) (words : List Dictionary)
    (h : List.Pairwise R words) :
    List.Pairwise R (show_dictionary_page get per_page words) := by
  unfold show_dictionary_page
  split
  · exact List.Pairwise.sublist (page_slice_sublist _ _ _) h
  · split <;> exact List.Pairwise.sublist (page_slice_sublist _ _ _) h

theorem pairwise_show_dictionary_words (db : Database) (prjId langId : Nat)
    (lf : Option (Dictionary → Bool)) :
    List.Pairwise (fun a b => a.source ≤ b.source)
      (show_dictionary_words db prjId langId lf) := by
  unfold show_dictionary_words
  cases lf with
  | none => exact pairwise_source_dictionary_words db prjId langId
  | some p => exact (pairwise_source_dictionary_words db prjId langId).filter p

theorem ttkit_units_pairwise (site_base version ef : String) (prj : Project)
    (lang : Language) (words : List Dictionary)
    (h : List.Pairwise (fun a b => a.source ≤ b.source) words) :
    List.Pairwise (fun a b : StoreUnit => a.source ≤ b.source)
      (download_dictionary_ttkit site_base version ef prj lang words).units := by
  unfold download_dictionary_ttkit
  split <;> exact h.map _ (fun a b hab => hab)

theorem show_dictionary_eq (get : List (String × String)) (db : Database)
    (lf : Option (Dictionary → Bool)) (project langCode : String)
    (prj : Project) (lang : Language) (limit : Nat)
    (hp : get_project db project = Except.ok prj)
    (hl : get_language db langCode = Except.ok lang)
    (hlim : parse_limit get = some limit) (hpos : limit ≠ 0) :
    show_dictionary get db lf project langCode =
      Except.ok (show_dictionary_page get limit
        (show_dictionary_words db prj.pid lang.lid lf)) := by
  simp [show_dictionary, hp, hl, hlim, hpos]

theorem one_le_num_pages (count limit : Nat) (h : 0 < limit) :
    1 ≤ num_pages count limit := by
  unfold num_pages
  rw [Nat.one_le_div_iff h]
  have := Nat.le_max_left 1 count
  omega

/-- C9: both download_dictionary (hence every CSV, PO and TBX export) and
the show_dictionary listing enumerate the project+language dictionary
entries ascending by source: consecutive emitted entries are ordered. -/
theorem c9_enumeration_ordered_by_source (db : Database) :
    (∀ prjId langId, List.Pairwise (fun a b => a.source ≤ b.source)
      (dictionary_words db prjId langId)) ∧
    (∀ site_base version get project langCode m fn rows,
      download_dictionary site_base version get db project langCode =
        Except.ok (DownloadResponse.csv m fn rows) →
      ∃ ws : List Dictionary, rows = ws.map csvRow ∧
        List.Pairwise (fun a b => a.source ≤ b.source) ws) ∧
    (∀ site_base version get project langCode f resp,
      download_dictionary site_base version get db project langCode =
        Except.ok (DownloadResponse.ttkit f resp) →
      List.Pairwise (fun a b : StoreUnit => a.source ≤ b.source) resp.units) ∧
    (∀ get lf project langCode ws,
      show_dictionary get db lf project langCode = Except.ok ws →
      List.Pairwise (fun a b => a.source ≤ b.source) ws) := by
  refine ⟨fun prjId langId => pairwise_source_dictionary_words db prjId langId,
    ?_, ?_, ?_⟩
  · intro site_base version get project langCode m fn rows h
    unfold download_dictionary at h
    cases hp : get_project db project <;> rw [hp] at h
    case error => simp at h
    case ok prj =>
    cases hl : get_language db langCode <;> rw [hl] at h
    case error => simp at h
    case ok lang =>
    simp only [ok_bind] at h
    split at h
    · simp at h
    · simp only [pure_eq_ok, Except.ok.injEq, DownloadResponse.csv.injEq] at h
      exact ⟨dictionary_words db prj.pid lang.lid, h.2.2.symm,
        pairwise_source_dictionary_words db prj.pid lang.lid⟩
  · intro site_base version get project langCode f resp h
    unfold download_dictionary at h
    cases hp : get_project db project <;> rw [hp] at h
    case error => simp at h
    case ok prj =>
    cases hl : get_language db langCode <;> rw [hl] at h
    case error => simp at h
    case ok lang =>
    simp only [ok_bind] at h
    split at h
    · simp only [pure_eq_ok, Except.ok.injEq, DownloadResponse.ttkit.injEq] at h
      rw [← h.2]
      exact ttkit_units_pairwise _ _ _ _ _ _
        (pairwise_source_dictionary_words db prj.pid lang.lid)
    · simp at h
  · intro get lf project langCode ws h
    unfold show_dictionary at h
    cases hp : get_project db project <;> rw [hp] at h
    case error => simp at h
    case ok prj =>
    cases hl : get_language db langCode <;> rw [hl] at h
    case error => simp at h
    case ok lang =>
    simp only [ok_bind] at h
    split at h
    · simp at h
    · split at h
      · simp at h
      · simp only [pure_eq_ok, Except.ok.injEq] at h
        rw [← h]
        exact pairwise_show_dictionary_page _ _ _
          (pairwise_show_dictionary_words db prj.pid lang.lid lf)

/-- Witness for C9: the CSV download of the concrete database is the image
of an ordered word list. -/
theorem c9_witness :
    download_dictionary "http://x" "1.6" [("format", "xls")] egDb "proj" "cs" =
      Except.ok (DownloadResponse.csv "text/csv; charset=utf-8"
        ("dictionary-" ++ egProject.slug ++ "-" ++ egLang.code ++ ".csv")
        ((dictionary_words egDb egProject.pid egLang.lid).map csvRow)) ∧
    (∃ ws : List Dictionary,
      (dictionary_words egDb egProject.pid egLang.lid).map csvRow = ws.map csvRow ∧
      List.Pairwise (fun a b => a.source ≤ b.source) ws) :=
  ⟨rfl,
   (c9_enumeration_ordered_by_source egDb).2.1 "http://x" "1.6"
     [("format", "xls")] "proj" "cs" "text/csv; charset=utf-8"
     ("dictionary-" ++ egProject.slug ++ "-" ++ egLang.code ++ ".csv")
     ((dictionary_words egDb egProject.pid egLang.lid).map csvRow) rfl⟩

/-- C10: show_dictionary paginates with the 'limit' GET parameter (default
25) as page size and the 'page' GET parameter (default 1) as page number,
and always delivers some page: a non-integer page falls back to the first
page and an out-of-range integer page to the last page. -/
theorem c10_show_dictionary_pagination (get : List (String × String))
    (db : Database) (lf : Option (Dictionary → Bool)) (project langCode : String)
    (prj : Project) (lang : Language) (limit : Nat)
    (hp : get_project db project = Except.ok prj)
    (hl : get_language db langCode = Except.ok lang)
    (hlim : parse_limit get = some limit) (hpos : 0 < limit) :
    ∃ ws, show_dictionary get db lf project langCode = Except.ok ws ∧
      (∃ k, 1 ≤ k ∧
        k ≤ num_pages (show_dictionary_words db prj.pid lang.lid lf).length limit ∧
        ws = page_slice (show_dictionary_words db prj.pid lang.lid lf) limit k) ∧
      (getParam get "limit" = none → limit = 25) ∧
      (getParam get "page" = none →
        ws = page_slice (show_dictionary_words db prj.pid lang.lid lf) limit 1) ∧
      (∀ s, getParam get "page" = some s → s.toInt? = none →
        ws = page_slice (show_dictionary_words db prj.pid lang.lid lf) limit 1) ∧
      (∀ s n, getParam get "page" = some s → s.toInt? = some n →
        (num_pages (show_dictionary_words db prj.pid lang.lid lf).length limit : Int) < n →
        ws = page_slice (show_dictionary_words db prj.pid lang.lid lf) limit
          (num_pages (show_dictionary_words db prj.pid lang.lid lf).length limit)) := by
  refine ⟨show_dictionary_page get limit (show_dictionary_words db prj.pid lang.lid lf),
    show_dictionary_eq get db lf project langCode prj lang limit hp hl hlim
      (Nat.pos_iff_ne_zero.mp hpos), ?_, ?_, ?_, ?_, ?_⟩
  · unfold show_dictionary_page
    cases hpp : parse_page get with
    | none => exact ⟨1, le_refl 1, one_le_num_pages _ _ hpos, rfl⟩
    | some n =>
      dsimp only
      by_cases hn : 1 ≤ n ∧ n ≤
        (num_pages (show_dictionary_words db prj.pid lang.lid lf).length limit : Int)
      · rw [if_pos hn]
        exact ⟨n.toNat, by omega, by omega, rfl⟩
      · rw [if_neg hn]
        exact ⟨_, one_le_num_pages _ _ hpos, le_refl _, rfl⟩
  · intro h
    unfold parse_limit at hlim
    rw [h] at hlim
    simp at hlim
    omega
  · intro h
    have hpp : parse_page get = some 1 := by unfold parse_page; rw [h]
    unfold show_dictionary_page
    simp only [hpp]
    rw [if_pos ⟨le_refl (1 : Int), by exact_mod_cast one_le_num_pages _ _ hpos⟩]
    rfl
  · intro s hs hint
    have hpp : parse_page get = none := by unfold parse_page; rw [hs]; exact hint
    unfold show_dictionary_page
    simp only [hpp]
  · intro s n hs hint hbeyond
    have hpp : parse_page get = some n := by unfold parse_page; rw [hs]; exact hint
    unfold show_dictionary_page
    simp only [hpp]
    rw [if_neg (by omega)]

/-- Witness for C10 at a concrete out-of-range page request. -/
theorem c10_witness :
    get_project egDb "proj" = Except.ok egProject ∧
    get_language egDb "cs" = Except.ok egLang ∧
    parse_limit [("page", "999")] = some 25 ∧ 0 < 25 ∧
    ∃ ws, show_dictionary [("page", "999")] egDb none "proj" "cs" =
        Except.ok ws ∧
      (∃ k, 1 ≤ k ∧
        k ≤ num_pages (show_dictionary_words egDb egProject.pid egLang.lid none).length 25 ∧
        ws = page_slice (show_dictionary_words egDb egProject.pid egLang.lid none) 25 k) :=
  ⟨by decide, by decide, by decide, by decide,
   match c10_show_dictionary_pagination [("page", "999")] egDb none "proj" "cs"
     egProject egLang 25 (by decide) (by decide) (by decide) (by decide) with
   | ⟨ws, h1, h2, _⟩ => ⟨ws, h1, h2⟩⟩

/-!
## Check-view error behavior
-/

theorem get_project_cases (db : Database) (slug : String) :
    (∃ p, get_project db slug = Except.ok p) ∨
      get_project db slug =
        Except.error (ViewError.http404 "No project matches the given query.") := by
  unfold get_project
  cases db.projects.find? (fun p => p.slug == slug) <;> simp

theorem get_subproject_cases (db : Database) (project subproject : String) :
    (∃ s, get_subproject db project subproject = Except.ok s) ∨
      ∃ m, get_subproject db project subproject =
        Except.error (ViewError.http404 m) := by
  unfold get_subproject
  rcases get_project_cases db project with ⟨p, hp⟩ | hp <;> rw [hp]
  · cases hfind : db.subprojects.find?
        (fun s => s.projectId == p.pid && s.slug == subproject) <;> simp [hfind]
  · exact Or.inr ⟨_, rfl⟩

/-- C5: for a check name that is no key of the CHECKS registry, each of
show_check, show_check_project and show_check_subproject responds with an
HTTP 404; the response is the same for every content of the Check and Unit
tables, i.e. no Check or Unit query is performed for that name. -/
theorem c5_unknown_check_name_404 (reg : List (String × CheckDef))
    (db : Database) (name : String) (h : lookupCheck reg name = none) :
    (∀ cs us, isHttp404 (show_check reg (setTables db cs us) name) = true) ∧
    (∀ cs us project,
      isHttp404 (show_check_project reg (setTables db cs us) name project) = true) ∧
    (∀ cs us project subproject,
      isHttp404 (show_check_subproject reg (setTables db cs us) name project
        subproject) = true) := by
  refine ⟨?_, ?_, ?_⟩
  · intro cs us
    simp [show_check, h, isHttp404]
  · intro cs us project
    unfold show_check_project
    rcases get_project_cases (setTables db cs us) project with ⟨p, hp⟩ | hp <;>
      rw [hp]
    · simp [h, isHttp404]
    · simp [isHttp404]
  · intro cs us project subproject
    unfold show_check_subproject
    rcases get_subproject_cases (setTables db cs us) project subproject with
      ⟨sp, hp⟩ | ⟨m, hp⟩ <;> rw [hp]
    · simp [h, isHttp404]
    · simp [isHttp404]

/-- Witness for C5 at a concrete unknown check name. -/
theorem c5_witness :
    lookupCheck egReg "bogus" = none ∧
    isHttp404 (show_check egReg (setTables egDb2 egDb2.checks egDb2.units)
      "bogus") = true :=
  ⟨by decide,
   (c5_unknown_check_name_404 egReg egDb2 "bogus" (by decide)).1
     egDb2.checks egDb2.units⟩

theorem foldlM_except_ok {α β : Type} (f : β → α → Except ViewError β) :
    ∀ l : List α, (∀ a ∈ l, ∀ acc, ∃ b, f acc a = Except.ok b) →
      ∀ acc, ∃ b, l.foldlM f acc = Except.ok b := by
  intro l
  induction l with
  | nil => intro _ acc; exact ⟨acc, rfl⟩
  | cons x xs ih =>
    intro h acc
    obtain ⟨b, hb⟩ := h x (List.mem_cons_self x xs) acc
    obtain ⟨b2, hb2⟩ := ih (fun a ha acc2 => h a (List.mem_cons_of_mem x ha) acc2) b
    exact ⟨b2, by rw [List.foldlM_cons, hb, ok_bind]; exact hb2⟩

theorem foldlM_except_error {α β : Type} (f : β → α → Except ViewError β)
    (err : ViewError) (p : α → Bool) :
    ∀ l : List α,
      (∀ a ∈ l, p a = true → ∀ acc, ∃ b, f acc a = Except.ok b) →
      (∀ a ∈ l, p a = false → ∀ acc, f acc a = Except.error err) →
      (∃ a ∈ l, p a = false) →
      ∀ acc, l.foldlM f acc = Except.error err := by
  intro l
  induction l with
  | nil =>
    intro _ _ h _
    obtain ⟨a, ha, _⟩ := h
    exact absurd ha (List.not_mem_nil a)
  | cons x xs ih =>
    intro hgood hbad h acc
    rw [List.foldlM_cons]
    cases hpx : p x with
    | false =>
      rw [hbad x (List.mem_cons_self x xs) hpx acc]
      rfl
    | true =>
      obtain ⟨b, hb⟩ := hgood x (List.mem_cons_self x xs) hpx acc
      rw [hb, ok_bind]
      apply ih
      · exact fun a ha => hgood a (List.mem_cons_of_mem x ha)
      · exact fun a ha => hbad a (List.mem_cons_of_mem x ha)
      · obtain ⟨a, ha, hpa⟩ := h
        rcases List.mem_cons.mp ha with rfl | ha2
        · rw [hpx] at hpa; cases hpa
        · exact ⟨a, ha2, hpa⟩

theorem project_source_rows_error (db : Database) (name : String) (prjId : Nat)
    (h : ∃ sp ∈ subproject_set db prjId, translation_set db sp.spid = []) :
    project_source_rows db name prjId = Except.error ViewError.indexError := by
  unfold project_source_rows
  apply foldlM_except_error _ _ (fun sp => !(translation_set db sp.spid).isEmpty)
  · intro sp _ hne acc
    cases hts : translation_set db sp.spid with
    | nil => simp [hts] at hne
    | cons t ts =>
      refine ⟨acc ++ groupCount (unitGroupKey db)
        (project_source_units_for db name prjId sp t.languageId), ?_⟩
      simp [hts]
  · intro sp _ he acc
    have hts : translation_set db sp.spid = [] := by simpa using he
    simp [hts]
  · obtain ⟨sp, hsp, hts⟩ := h
    exact ⟨sp, hsp, by simp [hts]⟩

theorem project_source_rows_ok (db : Database) (name : String) (prjId : Nat)
    (h : ∀ sp ∈ subproject_set db prjId, translation_set db sp.spid ≠ []) :
    ∃ rows, project_source_rows db name prjId = Except.ok rows := by
  unfold project_source_rows
  apply foldlM_except_ok
  intro sp hsp acc
  cases hts : translation_set db sp.spid with
  | nil => exact absurd hts (h sp hsp)
  | cons t ts =>
    refine ⟨acc ++ groupCount (unitGroupKey db)
      (project_source_units_for db name prjId sp t.languageId), ?_⟩
    simp [hts]

/-- C8: the source-scoped branches of show_check_project and
show_check_subproject index `translation_set.all()[0]` unguarded: with every
relevant subproject owning a translation the view completes, and with an
empty translation set it fails with the IndexError — an outcome distinct
from the Http404 / flash-message error mechanisms. -/
theorem c8_unguarded_first_translation (reg : List (String × CheckDef))
    (db : Database) (name project subproject : String) (check : CheckDef)
    (h : lookupCheck reg name = some check) (hs : check.source = true) :
    (∀ prj, get_project db project = Except.ok prj →
      ((∃ sp ∈ subproject_set db prj.pid, translation_set db sp.spid = []) →
        show_check_project reg db name project =
          Except.error ViewError.indexError) ∧
      ((∀ sp ∈ subproject_set db prj.pid, translation_set db sp.spid ≠ []) →
        ∃ rows, show_check_project reg db name project = Except.ok rows)) ∧
    (∀ subprj, get_subproject db project subproject = Except.ok subprj →
      (translation_set db subprj.spid = [] →
        show_check_subproject reg db name project subproject =
          Except.error ViewError.indexError) ∧
      (translation_set db subprj.spid ≠ [] →
        ∃ resp, show_check_subproject reg db name project subproject =
          Except.ok resp)) ∧
    (∀ m, ViewError.indexError = ViewError.http404 m → False) := by
  refine ⟨?_, ?_, fun m hm => by cases hm⟩
  · intro prj hp
    constructor
    · intro hempty
      unfold show_check_project
      rw [hp]
      simp [h, hs, project_source_rows_error db name prj.pid hempty]
    · intro hne
      obtain ⟨rows, hrows⟩ := project_source_rows_ok db name prj.pid hne
      refine ⟨(if check.target then groupCount (unitGroupKey db)
        (project_target_units db name prj.pid) else []) ++ rows, ?_⟩
      unfold show_check_project
      rw [hp]
      simp [h, hs, hrows]
  · intro subprj hsub
    constructor
    · intro hempty
      unfold show_check_subproject
      rw [hsub]
      simp [h, hs, subproject_source_count, hempty]
    · intro hne
      cases hts : translation_set db subprj.spid with
      | nil => exact absurd hts hne
      | cons t ts =>
        cases hres : show_check_subproject reg db name project subproject with
        | ok r => exact ⟨r, rfl⟩
        | error e =>
          exfalso
          unfold show_check_subproject at hres
          rw [hsub] at hres
          simp [h, hs, subproject_source_count, hts] at hres

/-- Witness for C8: the subproject of the concrete database has no
translations, and the subproject check view fails with the IndexError. -/
theorem c8_witness :
    lookupCheck egReg "src" = some egSourceDef ∧
    egSourceDef.source = true ∧
    get_subproject egDb3 "proj" "sub" = Except.ok egSub ∧
    translation_set egDb3 egSub.spid = [] ∧
    show_check_subproject egReg egDb3 "src" "proj" "sub" =
      Except.error ViewError.indexError :=
  ⟨by decide, by decide, by decide, by decide,
   ((c8_unguarded_first_translation egReg egDb3 "src" "proj" "sub" egSourceDef
      (by decide) (by decide)).2.1 egSub (by decide)).1 (by decide)⟩

theorem require_guard {α : Type} (perm : String) (user : UserState)
    (view : Database → Except ViewError α × Database) (db : Database)
    (h : user.is_authenticated = false ∨ user.perms.contains perm = false) :
    ((require_login_and_perm perm user view db).1 =
        GuardedResult.redirectToLogin ∨
      (require_login_and_perm perm user view db).1 = GuardedResult.denied) ∧
    (require_login_and_perm perm user view db).2 = db := by
  unfold require_login_and_perm
  cases hauth : user.is_authenticated with
  | false => simp
  | true =>
    rcases h with h | h
    · rw [hauth] at h; cases h
    · simp at h
      simp [h]

/-- C7: the dictionary-mutating views run behind login and permission
guards — edit_dictionary behind 'trans.change_dictionary', delete_dictionary
behind 'trans.delete_dictionary' and upload_dictionary behind
'trans.upload_dictionary'; a request lacking login or the permission is
redirected or denied and the database, in particular its Dictionary table,
is left unchanged. -/
theorem c7_dictionary_views_guarded (user : UserState) (db : Database)
    (project langCode : String) :
    ((user.is_authenticated = false ∨
        user.perms.contains "trans.change_dictionary" = false) →
      ∀ req, ((edit_dictionary user req project langCode db).1 =
            GuardedResult.redirectToLogin ∨
          (edit_dictionary user req project langCode db).1 =
            GuardedResult.denied) ∧
        (edit_dictionary user req project langCode db).2 = db) ∧
    ((user.is_authenticated = false ∨
        user.perms.contains "trans.delete_dictionary" = false) →
      ∀ req, ((delete_dictionary user req project langCode db).1 =
            GuardedResult.redirectToLogin ∨
          (delete_dictionary user req project langCode db).1 =
            GuardedResult.denied) ∧
        (delete_dictionary user req project langCode db).2 = db) ∧
    ((user.is_authenticated = false ∨
        user.perms.contains "trans.upload_dictionary" = false) →
      ∀ importEffect req,
        ((upload_dictionary importEffect user req project langCode db).1 =
            GuardedResult.redirectToLogin ∨
          (upload_dictionary importEffect user req project langCode db).1 =
            GuardedResult.denied) ∧
        (upload_dictionary importEffect user req project langCode db).2 = db) :=
  ⟨fun h req => require_guard "trans.change_dictionary" user
      (edit_dictionary_body req project langCode) db h,
   fun h req => require_guard "trans.delete_dictionary" user
      (delete_dictionary_body req project langCode) db h,
   fun h importEffect req => require_guard "trans.upload_dictionary" user
      (upload_dictionary_body importEffect req project langCode) db h⟩

/-- Witness for C7: an unauthenticated user's edit request is turned away
with the database unchanged. -/
theorem c7_witness :
    ((UserState.mk false []).is_authenticated = false ∨
      (UserState.mk false []).perms.contains "trans.change_dictionary" = false) ∧
    ((edit_dictionary (UserState.mk false [])
        (EditRequest.mk true true (WordFormData.mk "s" "t") (some 1))
        "proj" "cs" egDb).1 = GuardedResult.redirectToLogin ∨
      (edit_dictionary (UserState.mk false [])
        (EditRequest.mk true true (WordFormData.mk "s" "t") (some 1))
        "proj" "cs" egDb).1 = GuardedResult.denied) ∧
    (edit_dictionary (UserState.mk false [])
      (EditRequest.mk true true (WordFormData.mk "s" "t") (some 1))
      "proj" "cs" egDb).2 = egDb :=
  ⟨Or.inl rfl,
   (c7_dictionary_views_guarded (UserState.mk false []) egDb "proj" "cs").1
     (Or.inl rfl) (EditRequest.mk true true (WordFormData.mk "s" "t") (some 1))⟩

/-!
## Invariance of the check views under ignored rows (C3)
-/

@[simp] theorem setChecks_checks (db : Database) (cs : List CheckRow) :
    (setChecks db cs).checks = cs := rfl

@[simp] theorem setChecks_units (db : Database) (cs : List CheckRow) :
    (setChecks db cs).units = db.units := rfl

@[simp] theorem translationOf_setChecks (db : Database) (cs : List CheckRow) :
    translationOf (setChecks db cs) = translationOf db := rfl

@[simp] theorem unitLang_setChecks (db : Database) (cs : List CheckRow) :
    unitLang (setChecks db cs) = unitLang db := rfl

@[simp] theorem unitLangId_setChecks (db : Database) (cs : List CheckRow) :
    unitLangId (setChecks db cs) = unitLangId db := rfl

@[simp] theorem unitSubproject_setChecks (db : Database) (cs : List CheckRow) :
    unitSubproject (setChecks db cs) = unitSubproject db := rfl

@[simp] theorem unitProject_setChecks (db : Database) (cs : List CheckRow) :
    unitProject (setChecks db cs) = unitProject db := rfl

@[simp] theorem unitGroupKey_setChecks (db : Database) (cs : List CheckRow) :
    unitGroupKey (setChecks db cs) = unitGroupKey db := rfl

@[simp] theorem unitLangCode_setChecks (db : Database) (cs : List CheckRow) :
    unitLangCode (setChecks db cs) = unitLangCode db := rfl

@[simp] theorem translation_set_setChecks (db : Database) (cs : List CheckRow) :
    translation_set (setChecks db cs) = translation_set db := rfl

@[simp] theorem subproject_set_setChecks (db : Database) (cs : List CheckRow) :
    subproject_set (setChecks db cs) = subproject_set db := rfl

@[simp] theorem get_project_setChecks (db : Database) (cs : List CheckRow) :
    get_project (setChecks db cs) = get_project db := rfl

@[simp] theorem get_subproject_setChecks (db : Database) (cs : List CheckRow) :
    get_subproject (setChecks db cs) = get_subproject db := rfl

@[simp] theorem checkProjectSlug_setChecks (db : Database) (cs : List CheckRow) :
    checkProjectSlug (setChecks db cs) = checkProjectSlug db := rfl

theorem filter_insert_ignored (p : CheckRow → Bool) (c : CheckRow)
    (l1 l2 : List CheckRow) (hc : p c = false) :
    (l1 ++ c :: l2).filter p = (l1 ++ l2).filter p := by
  simp [List.filter_append, List.filter_cons, hc]

theorem project_check_langs_ins (db : Database) (c : CheckRow)
    (l1 l2 : List CheckRow) (hi : c.ignore = true) : ∀ (name : String) (prjId : Nat),
    project_check_langs (setChecks db (l1 ++ c :: l2)) name prjId =
      project_check_langs (setChecks db (l1 ++ l2)) name prjId := by
  intro name prjId
  unfold project_check_langs
  rw [setChecks_checks, setChecks_checks,
    filter_insert_ignored _ c l1 l2 (by simp [hi])]

theorem check_checksums_ins (db : Database) (c : CheckRow)
    (l1 l2 : List CheckRow) (hi : c.ignore = true) :
    ∀ (name : String) (prjId : Nat) (lang : Option Nat),
    check_checksums (setChecks db (l1 ++ c :: l2)) name prjId lang =
      check_checksums (setChecks db (l1 ++ l2)) name prjId lang := by
  intro name prjId lang
  unfold check_checksums
  rw [setChecks_checks, setChecks_checks,
    filter_insert_ignored _ c l1 l2 (by simp [target_check_filter, hi])]

theorem source_checksums_ins (db : Database) (c : CheckRow)
    (l1 l2 : List CheckRow) (hi : c.ignore = true) :
    ∀ (name : String) (prjId : Nat),
    source_checksums (setChecks db (l1 ++ c :: l2)) name prjId =
      source_checksums (setChecks db (l1 ++ l2)) name prjId := by
  intro name prjId
  unfold source_checksums
  exact check_checksums_ins db c l1 l2 hi name prjId none

theorem project_target_units_for_lang_ins (db : Database) (c : CheckRow)
    (l1 l2 : List CheckRow) (hi : c.ignore = true) :
    ∀ (name : String) (prjId : Nat) (lang : Option Nat),
    project_target_units_for_lang (setChecks db (l1 ++ c :: l2)) name prjId lang =
      project_target_units_for_lang (setChecks db (l1 ++ l2)) name prjId lang := by
  intro name prjId lang
  unfold project_target_units_for_lang
  simp only [setChecks_units, unitLang_setChecks, unitProject_setChecks,
    check_checksums_ins db c l1 l2 hi]

theorem project_target_units_ins (db : Database) (c : CheckRow)
    (l1 l2 : List CheckRow) (hi : c.ignore = true) :
    ∀ (name : String) (prjId : Nat),
    project_target_units (setChecks db (l1 ++ c :: l2)) name prjId =
      project_target_units (setChecks db (l1 ++ l2)) name prjId := by
  intro name prjId
  unfold project_target_units
  simp only [project_check_langs_ins db c l1 l2 hi,
    project_target_units_for_lang_ins db c l1 l2 hi]

theorem subproject_target_units_for_lang_ins (db : Database) (c : CheckRow)
    (l1 l2 : List CheckRow) (hi : c.ignore = true) :
    ∀ (name : String) (prjId spid : Nat) (lang : Option Nat),
    subproject_target_units_for_lang (setChecks db (l1 ++ c :: l2)) name prjId spid lang =
      subproject_target_units_for_lang (setChecks db (l1 ++ l2)) name prjId spid lang := by
  intro name prjId spid lang
  unfold subproject_target_units_for_lang
  simp only [setChecks_units, unitLang_setChecks, unitSubproject_setChecks,
    check_checksums_ins db c l1 l2 hi]

theorem subproject_target_units_ins (db : Database) (c : CheckRow)
    (l1 l2 : List CheckRow) (hi : c.ignore = true) :
    ∀ (name : String) (prjId spid : Nat),
    subproject_target_units (setChecks db (l1 ++ c :: l2)) name prjId spid =
      subproject_target_units (setChecks db (l1 ++ l2)) name prjId spid := by
  intro name prjId spid
  unfold subproject_target_units
  simp only [project_check_langs_ins db c l1 l2 hi,
    subproject_target_units_for_lang_ins db c l1 l2 hi]

theorem project_source_units_for_ins (db : Database) (c : CheckRow)
    (l1 l2 : List CheckRow) (hi : c.ignore = true) :
    ∀ (name : String) (prjId : Nat) (sp : SubProject) (langId : Nat),
    project_source_units_for (setChecks db (l1 ++ c :: l2)) name prjId sp langId =
      project_source_units_for (setChecks db (l1 ++ l2)) name prjId sp langId := by
  intro name prjId sp langId
  unfold project_source_units_for
  simp only [setChecks_units, unitLang_setChecks, unitSubproject_setChecks,
    source_checksums_ins db c l1 l2 hi]

theorem project_source_rows_ins (db : Database) (c : CheckRow)
    (l1 l2 : List CheckRow) (hi : c.ignore = true) :
    ∀ (name : String) (prjId : Nat),
    project_source_rows (setChecks db (l1 ++ c :: l2)) name prjId =
      project_source_rows (setChecks db (l1 ++ l2)) name prjId := by
  intro name prjId
  unfold project_source_rows
  simp only [subproject_set_setChecks, translation_set_setChecks,
    unitGroupKey_setChecks, project_source_units_for_ins db c l1 l2 hi]

theorem subproject_source_count_ins (db : Database) (c : CheckRow)
    (l1 l2 : List CheckRow) (hi : c.ignore = true) :
    ∀ (name : String) (prjId spid : Nat),
    subproject_source_count (setChecks db (l1 ++ c :: l2)) name prjId spid =
      subproject_source_count (setChecks db (l1 ++ l2)) name prjId spid := by
  intro name prjId spid
  unfold subproject_source_count
  simp only [translation_set_setChecks, setChecks_units, unitLang_setChecks,
    unitSubproject_setChecks, source_checksums_ins db c l1 l2 hi]

theorem show_checks_ins (db : Database) (c : CheckRow)
    (l1 l2 : List CheckRow) (hi : c.ignore = true) :
    show_checks (setChecks db (l1 ++ c :: l2)) =
      show_checks (setChecks db (l1 ++ l2)) := by
  unfold show_checks
  rw [setChecks_checks, setChecks_checks,
    filter_insert_ignored _ c l1 l2 (by simp [hi])]

theorem show_check_ins (db : Database) (c : CheckRow)
    (l1 l2 : List CheckRow) (hi : c.ignore = true)
    (reg : List (String × CheckDef)) (name : String) :
    show_check reg (setChecks db (l1 ++ c :: l2)) name =
      show_check reg (setChecks db (l1 ++ l2)) name := by
  unfold show_check
  cases lookupCheck reg name with
  | none => rfl
  | some cd =>
    simp only [checkProjectSlug_setChecks, setChecks_checks]
    rw [filter_insert_ignored _ c l1 l2 (by simp [hi])]

theorem show_check_project_ins (db : Database) (c : CheckRow)
    (l1 l2 : List CheckRow) (hi : c.ignore = true)
    (reg : List (String × CheckDef)) (name project : String) :
    show_check_project reg (setChecks db (l1 ++ c :: l2)) name project =
      show_check_project reg (setChecks db (l1 ++ l2)) name project := by
  unfold show_check_project
  simp only [get_project_setChecks, unitGroupKey_setChecks,
    project_target_units_ins db c l1 l2 hi,
    project_source_rows_ins db c l1 l2 hi]

theorem show_check_subproject_ins (db : Database) (c : CheckRow)
    (l1 l2 : List CheckRow) (hi : c.ignore = true)
    (reg : List (String × CheckDef)) (name project subproject : String) :
    show_check_subproject reg (setChecks db (l1 ++ c :: l2)) name project subproject =
      show_check_subproject reg (setChecks db (l1 ++ l2)) name project subproject := by
  unfold show_check_subproject
  simp only [get_subproject_setChecks, unitLangCode_setChecks,
    subproject_target_units_ins db c l1 l2 hi,
    subproject_source_count_ins db c l1 l2 hi]

/-- C3: every Check query of the failing-check listing views filters on
ignore=False — inserting an ignored Check row anywhere into the check table
changes neither the listed groups nor any reported aggregate of show_checks,
show_check, show_check_project or show_check_subproject. -/
theorem c3_ignored_checks_invisible (db : Database) (c : CheckRow)
    (l1 l2 : List CheckRow) (reg : List (String × CheckDef))
    (name project subproject : String) (hi : c.ignore = true) :
    show_checks (setChecks db (l1 ++ c :: l2)) =
      show_checks (setChecks db (l1 ++ l2)) ∧
    show_check reg (setChecks db (l1 ++ c :: l2)) name =
      show_check reg (setChecks db (l1 ++ l2)) name ∧
    show_check_project reg (setChecks db (l1 ++ c :: l2)) name project =
      show_check_project reg (setChecks db (l1 ++ l2)) name project ∧
    show_check_subproject reg (setChecks db (l1 ++ c :: l2)) name project subproject =
      show_check_subproject reg (setChecks db (l1 ++ l2)) name project subproject :=
  ⟨show_checks_ins db c l1 l2 hi,
   show_check_ins db c l1 l2 hi reg name,
   show_check_project_ins db c l1 l2 hi reg name project,
   show_check_subproject_ins db c l1 l2 hi reg name project subproject⟩

/-- Witness for C3: inserting the concrete ignored check row changes none of
the four views on the concrete database. -/
theorem c3_witness :
    (CheckRow.mk 2 "same" 1 (some 2) "cks1" true).ignore = true ∧
    show_checks (setChecks egDb2
        ([CheckRow.mk 1 "same" 1 (some 1) "cks1" false] ++
          CheckRow.mk 2 "same" 1 (some 2) "cks1" true ::
          [CheckRow.mk 3 "src" 1 none "cks2" false])) =
      show_checks (setChecks egDb2
        ([CheckRow.mk 1 "same" 1 (some 1) "cks1" false] ++
          [CheckRow.mk 3 "src" 1 none "cks2" false])) :=
  ⟨rfl,
   (c3_ignored_checks_invisible egDb2 (CheckRow.mk 2 "same" 1 (some 2) "cks1" true)
      [CheckRow.mk 1 "same" 1 (some 1) "cks1" false]
      [CheckRow.mk 3 "src" 1 none "cks2" false]
      egReg "same" "proj" "sub" rfl).1⟩

/-!
## Characterization of the target/source scoped aggregation (C4)
-/

theorem contains_iff_mem {α : Type} [BEq α] [LawfulBEq α] (l : List α) (a : α) :
    l.contains a = true ↔ a ∈ l := by
  rw [List.contains_iff_exists_mem_beq]
  constructor
  · rintro ⟨a', ha', he⟩
    rw [eq_of_beq he]
    exact ha'
  · intro h
    exact ⟨a, h, by simp⟩

theorem unitLang_eq_true_iff (db : Database) (u : UnitRow) (lang : Option Nat) :
    unitLang db u lang = true ↔
      ∃ t, translationOf db u = some t ∧ lang = some t.languageId := by
  unfold unitLang
  cases ht : translationOf db u with
  | none => simp
  | some t =>
    simp only [beq_iff_eq, Option.some.injEq]
    constructor
    · intro h
      exact ⟨t, rfl, h.symm⟩
    · rintro ⟨t', rfl, hl⟩
      exact hl.symm

theorem unitLangId_eq (db : Database) (u : UnitRow) (t : Translation)
    (ht : translationOf db u = some t) :
    unitLangId db u = some t.languageId := by
  unfold unitLangId
  rw [ht]
  rfl

theorem unitProject_translation (db : Database) (u : UnitRow) (prjId : Nat)
    (h : unitProject db u prjId = true) :
    ∃ t, translationOf db u = some t := by
  unfold unitProject at h
  cases ht : translationOf db u with
  | none => rw [ht] at h; simp [Option.bind] at h
  | some t => exact ⟨t, rfl⟩

theorem unitSubproject_translation (db : Database) (u : UnitRow) (spid : Nat)
    (h : unitSubproject db u spid = true) :
    ∃ t, translationOf db u = some t := by
  unfold unitSubproject at h
  cases ht : translationOf db u with
  | none => rw [ht] at h; simp at h
  | some t => exact ⟨t, rfl⟩

theorem mem_project_target_units_iff (db : Database) (name : String)
    (prjId : Nat) (u : UnitRow) :
    u ∈ project_target_units db name prjId ↔
      u ∈ spec_project_target_units db name prjId := by
  unfold project_target_units spec_project_target_units
  rw [List.mem_flatMap, List.mem_filter]
  constructor
  · rintro ⟨lang, hlang, hu⟩
    unfold project_target_units_for_lang at hu
    rw [List.mem_filter] at hu
    obtain ⟨humem, hpred⟩ := hu
    rw [Bool.and_eq_true, Bool.and_eq_true, Bool.and_eq_true] at hpred
    obtain ⟨⟨⟨hcont, hlangu⟩, hproj⟩, htrans⟩ := hpred
    refine ⟨humem, ?_⟩
    rw [Bool.and_eq_true, Bool.and_eq_true]
    refine ⟨⟨htrans, hproj⟩, ?_⟩
    rw [contains_iff_mem] at hcont
    unfold check_checksums at hcont
    rw [List.mem_map] at hcont
    obtain ⟨c0, hc0mem, hc0sum⟩ := hcont
    rw [List.mem_filter] at hc0mem
    obtain ⟨hc0db, hc0f⟩ := hc0mem
    unfold target_check_filter at hc0f
    rw [Bool.and_eq_true, Bool.and_eq_true, Bool.and_eq_true] at hc0f
    obtain ⟨⟨⟨hc0n, hc0p⟩, hc0l⟩, hc0i⟩ := hc0f
    rw [List.any_eq_true]
    refine ⟨c0, hc0db, ?_⟩
    rw [Bool.and_eq_true, Bool.and_eq_true, Bool.and_eq_true, Bool.and_eq_true]
    obtain ⟨t, ht, hlangt⟩ := (unitLang_eq_true_iff db u lang).mp hlangu
    refine ⟨⟨⟨⟨hc0n, hc0p⟩, hc0i⟩, ?_⟩, ?_⟩
    · rw [beq_iff_eq] at hc0l ⊢
      rw [hc0l, hlangt, unitLangId_eq db u t ht]
    · rw [beq_iff_eq]
      exact hc0sum
  · rintro ⟨humem, hpred⟩
    rw [Bool.and_eq_true, Bool.and_eq_true] at hpred
    obtain ⟨⟨htrans, hproj⟩, hany⟩ := hpred
    rw [List.any_eq_true] at hany
    obtain ⟨c0, hc0db, hc0f⟩ := hany
    rw [Bool.and_eq_true, Bool.and_eq_true, Bool.and_eq_true, Bool.and_eq_true] at hc0f
    obtain ⟨⟨⟨⟨hc0n, hc0p⟩, hc0i⟩, hc0l⟩, hc0sum⟩ := hc0f
    obtain ⟨t, ht⟩ := unitProject_translation db u prjId hproj
    refine ⟨c0.languageId, ?_, ?_⟩
    · unfold project_check_langs
      rw [List.mem_dedup, List.mem_map]
      refine ⟨c0, ?_, rfl⟩
      rw [List.mem_filter]
      refine ⟨hc0db, ?_⟩
      rw [Bool.and_eq_true, Bool.and_eq_true]
      exact ⟨⟨hc0n, hc0p⟩, hc0i⟩
    · unfold project_target_units_for_lang
      rw [List.mem_filter]
      refine ⟨humem, ?_⟩
      rw [Bool.and_eq_true, Bool.and_eq_true, Bool.and_eq_true]
      refine ⟨⟨⟨?_, ?_⟩, hproj⟩, htrans⟩
      · rw [contains_iff_mem]
        unfold check_checksums
        rw [List.mem_map]
        refine ⟨c0, ?_, ?_⟩
        · rw [List.mem_filter]
          refine ⟨hc0db, ?_⟩
          unfold target_check_filter
          rw [Bool.and_eq_true, Bool.and_eq_true, Bool.and_eq_true]
          exact ⟨⟨⟨hc0n, hc0p⟩, by simp⟩, hc0i⟩
        · rw [beq_iff_eq] at hc0sum
          exact hc0sum
      · rw [unitLang_eq_true_iff]
        refine ⟨t, ht, ?_⟩
        rw [beq_iff_eq] at hc0l
        rw [hc0l]
        exact unitLangId_eq db u t ht

theorem mem_subproject_target_units_iff (db : Database) (name : String)
    (prjId spid : Nat) (u : UnitRow) :
    u ∈ subproject_target_units db name prjId spid ↔
      u ∈ spec_subproject_target_units db name prjId spid := by
  unfold subproject_target_units spec_subproject_target_units
  rw [List.mem_flatMap, List.mem_filter]
  constructor
  · rintro ⟨lang, hlang, hu⟩
    unfold subproject_target_units_for_lang at hu
    rw [List.mem_filter] at hu
    obtain ⟨humem, hpred⟩ := hu
    rw [Bool.and_eq_true, Bool.and_eq_true, Bool.and_eq_true] at hpred
    obtain ⟨⟨⟨hsub, hcont⟩, hlangu⟩, htrans⟩ := hpred
    refine ⟨humem, ?_⟩
    rw [Bool.and_eq_true, Bool.and_eq_true]
    refine ⟨⟨htrans, hsub⟩, ?_⟩
    rw [contains_iff_mem] at hcont
    unfold check_checksums at hcont
    rw [List.mem_map] at hcont
    obtain ⟨c0, hc0mem, hc0sum⟩ := hcont
    rw [List.mem_filter] at hc0mem
    obtain ⟨hc0db, hc0f⟩ := hc0mem
    unfold target_check_filter at hc0f
    rw [Bool.and_eq_true, Bool.and_eq_true, Bool.and_eq_true] at hc0f
    obtain ⟨⟨⟨hc0n, hc0p⟩, hc0l⟩, hc0i⟩ := hc0f
    rw [List.any_eq_true]
    refine ⟨c0, hc0db, ?_⟩
    rw [Bool.and_eq_true, Bool.and_eq_true, Bool.and_eq_true, Bool.and_eq_true]
    obtain ⟨t, ht, hlangt⟩ := (unitLang_eq_true_iff db u lang).mp hlangu
    refine ⟨⟨⟨⟨hc0n, hc0p⟩, hc0i⟩, ?_⟩, ?_⟩
    · rw [beq_iff_eq] at hc0l ⊢
      rw [hc0l, hlangt, unitLangId_eq db u t ht]
    · rw [beq_iff_eq]
      exact hc0sum
  · rintro ⟨humem, hpred⟩
    rw [Bool.and_eq_true, Bool.and_eq_true] at hpred
    obtain ⟨⟨htrans, hsub⟩, hany⟩ := hpred
    rw [List.any_eq_true] at hany
    obtain ⟨c0, hc0db, hc0f⟩ := hany
    rw [Bool.and_eq_true, Bool.and_eq_true, Bool.and_eq_true, Bool.and_eq_true] at hc0f
    obtain ⟨⟨⟨⟨hc0n, hc0p⟩, hc0i⟩, hc0l⟩, hc0sum⟩ := hc0f
    obtain ⟨t, ht⟩ := unitSubproject_translation db u spid hsub
    refine ⟨c0.languageId, ?_, ?_⟩
    · unfold project_check_langs
      rw [List.mem_dedup, List.mem_map]
      refine ⟨c0, ?_, rfl⟩
      rw [List.mem_filter]
      refine ⟨hc0db, ?_⟩
      rw [Bool.and_eq_true, Bool.and_eq_true]
      exact ⟨⟨hc0n, hc0p⟩, hc0i⟩
    · unfold subproject_target_units_for_lang
      rw [List.mem_filter]
      refine ⟨humem, ?_⟩
      rw [Bool.and_eq_true, Bool.and_eq_true, Bool.and_eq_true]
      refine ⟨⟨⟨hsub, ?_⟩, ?_⟩, htrans⟩
      · rw [contains_iff_mem]
        unfold check_checksums
        rw [List.mem_map]
        refine ⟨c0, ?_, ?_⟩
        · rw [List.mem_filter]
          refine ⟨hc0db, ?_⟩
          unfold target_check_filter
          rw [Bool.and_eq_true, Bool.and_eq_true, Bool.and_eq_true]
          exact ⟨⟨⟨hc0n, hc0p⟩, by simp⟩, hc0i⟩
        · rw [beq_iff_eq] at hc0sum
          exact hc0sum
      · rw [unitLang_eq_true_iff]
        refine ⟨t, ht, ?_⟩
        rw [beq_iff_eq] at hc0l
        rw [hc0l]
        exact unitLangId_eq db u t ht

@[simp] theorem setUnits_units (db : Database) (f : UnitRow → Bool) :
    (setUnits db f).units =
      db.units.map (fun u => { u with translated := f u }) := rfl

@[simp] theorem translationOf_setUnits (db : Database) (f : UnitRow → Bool) :
    translationOf (setUnits db f) = translationOf db := rfl

@[simp] theorem unitLang_setUnits (db : Database) (f : UnitRow → Bool) :
    unitLang (setUnits db f) = unitLang db := rfl

@[simp] theorem unitSubproject_setUnits (db : Database) (f : UnitRow → Bool) :
    unitSubproject (setUnits db f) = unitSubproject db := rfl

@[simp] theorem translation_set_setUnits (db : Database) (f : UnitRow → Bool) :
    translation_set (setUnits db f) = translation_set db := rfl

@[simp] theorem source_checksums_setUnits (db : Database) (f : UnitRow → Bool) :
    source_checksums (setUnits db f) = source_checksums db := rfl

theorem filter_length_setUnits (p : UnitRow → Bool) (f : UnitRow → Bool)
    (l : List UnitRow)
    (hp : ∀ u, p { u with translated := f u } = p u) :
    ((l.map (fun u => { u with translated := f u })).filter p).length =
      (l.filter p).length := by
  rw [List.filter_map, List.length_map]
  congr 1
  apply List.filter_congr
  intro u _
  exact hp u

theorem subproject_source_count_setUnits (db : Database) (f : UnitRow → Bool)
    (name : String) (prjId spid : Nat) :
    subproject_source_count (setUnits db f) name prjId spid =
      subproject_source_count db name prjId spid := by
  unfold subproject_source_count
  simp only [translation_set_setUnits, setUnits_units, unitLang_setUnits,
    unitSubproject_setUnits, source_checksums_setUnits]
  cases (translation_set db spid).head? with
  | none => rfl
  | some tr =>
    dsimp only
    congr 1
    apply filter_length_setUnits
    intro u
    rfl

theorem project_source_units_for_setUnits (db : Database) (f : UnitRow → Bool)
    (name : String) (prjId : Nat) (sp : SubProject) (langId : Nat) :
    (project_source_units_for (setUnits db f) name prjId sp langId).length =
      (project_source_units_for db name prjId sp langId).length := by
  unfold project_source_units_for
  simp only [setUnits_units, unitLang_setUnits, unitSubproject_setUnits,
    source_checksums_setUnits]
  apply filter_length_setUnits
  intro u
  rfl

/-- C4: in show_check_project and show_check_subproject, the target-scoped
aggregation counts exactly the translated units whose translation language
carries a matching non-ignored check row with the unit's checksum (iterating
the distinct languages of those rows), while the source-scoped branch draws
its checksums only from rows with language null and counts units of the
single language of the subproject's first translation with no translated
filter (the counts are invariant under arbitrary rewriting of every unit's
translated flag). -/
theorem c4_target_source_scope (db : Database) (name : String) :
    (∀ prjId u, u ∈ project_target_units db name prjId ↔
      u ∈ spec_project_target_units db name prjId) ∧
    (∀ prjId spid u, u ∈ subproject_target_units db name prjId spid ↔
      u ∈ spec_subproject_target_units db name prjId spid) ∧
    (∀ prjId s, s ∈ source_checksums db name prjId →
      ∃ c ∈ db.checks, c.check = name ∧ c.projectId = prjId ∧
        c.languageId = none ∧ c.ignore = false ∧ c.checksum = s) ∧
    (∀ f prjId spid, subproject_source_count (setUnits db f) name prjId spid =
      subproject_source_count db name prjId spid) ∧
    (∀ f prjId sp langId,
      (project_source_units_for (setUnits db f) name prjId sp langId).length =
        (project_source_units_for db name prjId sp langId).length) := by
  refine ⟨fun prjId u => mem_project_target_units_iff db name prjId u,
    fun prjId spid u => mem_subproject_target_units_iff db name prjId spid u,
    ?_,
    fun f prjId spid => subproject_source_count_setUnits db f name prjId spid,
    fun f prjId sp langId =>
      project_source_units_for_setUnits db f name prjId sp langId⟩
  intro prjId s hs
  unfold source_checksums check_checksums at hs
  rw [List.mem_map] at hs
  obtain ⟨c0, hc0mem, hc0sum⟩ := hs
  rw [List.mem_filter] at hc0mem
  obtain ⟨hc0db, hc0f⟩ := hc0mem
  unfold target_check_filter at hc0f
  rw [Bool.and_eq_true, Bool.and_eq_true, Bool.and_eq_true] at hc0f
  obtain ⟨⟨⟨hc0n, hc0p⟩, hc0l⟩, hc0i⟩ := hc0f
  rw [beq_iff_eq] at hc0n hc0p hc0l
  rw [Bool.not_eq_eq_eq_not] at hc0i
  exact ⟨c0, hc0db, hc0n, hc0p, hc0l, by simpa using hc0i, hc0sum⟩

/-- Witness for C4: the source-scoped checksum of the concrete database
comes from a language-null non-ignored check row. -/
theorem c4_witness :
    "cks2" ∈ source_checksums egDb2 "src" 1 ∧
    ∃ c ∈ egDb2.checks, c.check = "src" ∧ c.projectId = 1 ∧
      c.languageId = none ∧ c.ignore = false ∧ c.checksum = "cks2" :=
  ⟨by decide,
   (c4_target_source_scope egDb2 "src").2.2.1 1 "cks2" (by decide)⟩

end Weblate
